import Mathlib

/-!
Verification development for the MAX77665 battery-charger driver
(drivers/power/max77665-charger.c).

The driver is shallowly embedded: each C function of interest becomes a pure
Lean function over an explicit charger-state record, an oracle describing the
register-transport collaborator, and a trace of externally visible actions.
C int values are modelled as Int (C division, which truncates toward zero, is
Int.tdiv); register bytes read from the chip are modelled as Nat.
-/

namespace Max77665

/-- Hardware current-register granularity in mA. Modelled from the spec: the
constant CURRENT_STEP_mA is defined in the max77665 headers, which are not in
the repository; the spec calls it the minimum current-register granularity of
the hardware. The MAX77665 CHGIN input-current-limit register counts in
20 mA steps. -/
def CURRENT_STEP_mA : Int := 20

/-- Modelled from the spec: the lower clamp used by the CURRENT_MAX read path;
the constant MIN_CURRENT_LIMIT_mA lives in the missing header. -/
def MIN_CURRENT_LIMIT_mA : Int := 60

/-- Register addresses. The numeric values come from the missing max77665
headers; they matter only as distinct keys into the transport oracle. -/
def MAX77665_CHG_CNFG_00 : Int := 0xB7

/-- Charger configuration register 06 (write-protection control). -/
def MAX77665_CHG_CNFG_06 : Int := 0xBD

/-- Charger configuration register 09 (input-current ceiling). -/
def MAX77665_CHG_CNFG_09 : Int := 0xC0

/-- Charger configuration register 12 (input-voltage regulation). -/
def MAX77665_CHG_CNFG_12 : Int := 0xC3

/-- Charger detail register 00 (charging-input detail). -/
def MAX77665_CHG_DTLS_00 : Int := 0xB3

/-- Charger detail register 01 (charger and battery detail). -/
def MAX77665_CHG_DTLS_01 : Int := 0xB4

/-- Charger detail register 02 (bypass detail). -/
def MAX77665_CHG_DTLS_02 : Int := 0xB5

/-- Status bits of the CHG_INT_OK snapshot. Modelled from the spec (the bit
positions live in the missing header); only their distinctness matters. -/
def BYP_BIT : Nat := 1

/-- Main-battery-presence OK bit of the status snapshot. -/
def DETBAT_BIT : Nat := 2

/-- Battery OK bit of the status snapshot. -/
def BAT_BIT : Nat := 8

/-- Charger OK bit of the status snapshot. -/
def CHG_BIT : Nat := 16

/-- Charging-input OK bit of the status snapshot. -/
def CHGIN_BIT : Nat := 64

/-- Battery-detail sub-status field of CHG_DTLS_01. Modelled from the spec:
the extraction macro BAT_DTLS_MASK is in the missing header; modelled as a
three-bit field. -/
def BAT_DTLS_MASK (v : Nat) : Nat := (v >>> 4) &&& 7

/-- Overcurrent detail code of the battery-detail sub-status. -/
def BAT_DTLS_OVERCURRENT : Nat := 6

/-- Mode-selection bitmasks written to CHG_CNFG_00. Modelled from the spec:
numeric values are from the missing header and are immaterial here. -/
def CHARGER_OFF_OTG_OFF_BUCK_ON_BOOST_OFF : Nat := 0x04

/-- CHG_CNFG_00 bitmask enabling the charge path. -/
def CHARGER_ON_OTG_OFF_BUCK_ON_BOOST_OFF : Nat := 0x05

/-- CHG_CNFG_00 bitmask enabling reverse boost. -/
def CHARGER_OFF_OTG_ON_BUCK_OFF_BOOST_ON : Nat := 0x2A

/-- Hardware charging-watchdog enable bit of CHG_CNFG_00. -/
def WDTEN : Nat := 0x10

/-- Input-voltage regulation floor bit of CHG_CNFG_12. -/
def VCHGIN_REGULATION_4V3 : Nat := 0x08

/-- Operating mode of the charger, enum max77665_mode of the driver. -/
inductive Mode
  | OFF
  | CHARGER
  | OTG
deriving DecidableEq, Repr

/-- The shared charger state (struct max77665_charger), restricted to the
fields the claims are about. The delayed watchdog-acknowledgment work and the
watchdog alarm are abstracted into the single flag wdt_armed. -/
structure ChargerState where
  mode : Mode
  max_current_mA : Int
  ac_online : Nat
  usb_online : Nat
  oc_count : Nat
  wdt_armed : Bool
deriving DecidableEq, Repr

/-- Externally visible actions emitted by the driver, in program order. -/
inductive Act
  | setMode (m : Mode)
  | setCeiling (mA : Int)
  | regWrite (reg value : Int)
  | wdtDisarm
  | wdtArm
  | updateStatus (mA : Int)
  | setAcOnline (v : Nat)
  | setUsbOnline (v : Nat)
  | psyChangedUsb
  | psyChangedAc
  | scheduleRecal (delay_ms : Nat)
deriving DecidableEq, Repr

/-- Is this action a hardware register write? -/
def Act.isRegWrite : Act → Bool
  | Act.regWrite _ _ => true
  | _ => false

/-- Oracle for the register-transport collaborator: the transport result of a
write of a given value to a given register, the transport result of a read,
and the byte a read observes. When a read fails the driver often keeps using
the output variable, so readVal also stands for that residual value. -/
structure Hw where
  writeRet : Int → Int → Int
  readRet : Int → Int
  readVal : Int → Nat

/-- max77665_write_reg: reject values outside one byte with -EINVAL (-22),
otherwise hand the write to the transport and return its result. -/
def max77665_write_reg (hw : Hw) (reg value : Int) : Int :=
  if value < 0 ∨ 0xFF < value then -22
  else hw.writeRet reg value

/-- max77665_enable_write: unlock (0x0c) or re-lock (0x00) register-bank write
access through CHG_CNFG_06; returns the write result and the action trace. -/
def max77665_enable_write (hw : Hw) (access : Bool) : Int × List Act :=
  let v : Int := if access then 0x0c else 0x00
  (max77665_write_reg hw MAX77665_CHG_CNFG_06 v,
   [Act.regWrite MAX77665_CHG_CNFG_06 v])

/-- max77665_set_max_input_current: program the input-current ceiling register
CHG_CNFG_09 with mA / CURRENT_STEP_mA. The source checks the write result
only to log (dev_err) and then executes an unconditional return 0. -/
def max77665_set_max_input_current (hw : Hw) (mA : Int) : Int × List Act :=
  let v := mA.tdiv CURRENT_STEP_mA
  let _ret := max77665_write_reg hw MAX77665_CHG_CNFG_09 v
  (0, [Act.regWrite MAX77665_CHG_CNFG_09 v])

/-- max77665_get_max_input_current: read CHG_CNFG_09, mask to 7 bits, scale by
the current step and clamp below by MIN_CURRENT_LIMIT_mA; the transport result
of the read is returned unchanged. Returns (ret, mA). -/
def max77665_get_max_input_current (hw : Hw) : Int × Int :=
  let ret := hw.readRet MAX77665_CHG_CNFG_09
  let val := hw.readVal MAX77665_CHG_CNFG_09 &&& 0x7F
  (ret, max MIN_CURRENT_LIMIT_mA ((val : Int) * CURRENT_STEP_mA))

/-- Power-supply property identifiers used by the writable property path. -/
def POWER_SUPPLY_PROP_ONLINE : Nat := 0

/-- CURRENT_MAX power-supply property identifier. -/
def POWER_SUPPLY_PROP_CURRENT_MAX : Nat := 1

/-- max77665_charger_set_property: the writable CURRENT_MAX property forwards
the microampere value divided by 1000 to max77665_set_max_input_current and
returns its result; any other property is rejected with -EINVAL. -/
def max77665_charger_set_property (hw : Hw) (psp : Nat) (intval : Int) : Int :=
  if psp = POWER_SUPPLY_PROP_CURRENT_MAX then
    (max77665_set_max_input_current hw (intval.tdiv 1000)).1
  else -22

/-- Binary-search loop body of max77665_set_ideal_input_current. The source
is a do-while: the body always runs once, then repeats while
CURRENT_STEP_mA <= (max - min). The outcome of max77665_check_charging_ok
after programming mid and letting the current settle depends on the probed
current, so it is abstracted as the oracle chargingOk applied to mid. The
fuel argument is a structural bound on the number of iterations; the wrapper
passes the initial window size, which the window-shrinking proofs below show
is never exhausted before the loop exits on its own. Returns the list of
probed midpoints and either the error of an aborted run or the final mid. -/
def idealSearchLoop (hw : Hw) (chargingOk : Int → Bool) :
    Nat → Int → Int → List Int × Except Int Int
  | 0, min, max =>
    let mid := (min + max).tdiv 2
    let ret := (max77665_set_max_input_current hw mid).1
    if ret < 0 then ([mid], Except.error ret) else ([mid], Except.ok mid)
  | fuel + 1, min, max =>
    let mid := (min + max).tdiv 2
    let ret := (max77665_set_max_input_current hw mid).1
    if ret < 0 then ([mid], Except.error ret)
    else if chargingOk mid then
      if CURRENT_STEP_mA ≤ max - mid then
        let r := idealSearchLoop hw chargingOk fuel mid max
        (mid :: r.1, r.2)
      else ([mid], Except.ok mid)
    else
      if CURRENT_STEP_mA ≤ mid - min then
        let r := idealSearchLoop hw chargingOk fuel min mid
        (mid :: r.1, r.2)
      else ([mid], Except.ok mid)

/-- max77665_set_ideal_input_current: binary search between min = 100 and
max = the ceiling at call time; on normal termination the terminal mid is
stored into max_current_mA, on an aborted probe the error is returned and the
state is left unchanged. -/
def max77665_set_ideal_input_current (hw : Hw) (chargingOk : Int → Bool)
    (st : ChargerState) : Except Int ChargerState :=
  let r := idealSearchLoop hw chargingOk (st.max_current_mA - 100).toNat
    100 st.max_current_mA
  match r.2 with
  | Except.error e => Except.error e
  | Except.ok mid => Except.ok { st with max_current_mA := mid }

/-- Modelled from the spec: the calibration algorithm as section 4.2 words it,
a while-loop that tests CURRENT_STEP_mA <= (max - min) before each iteration
and, on termination, yields the terminal mid (none when no iteration ran, in
which case the spec text defines no new ceiling). Same fuel convention as
idealSearchLoop. -/
def calibrationSpecLoop (chargingOk : Int → Bool) :
    Nat → Int → Int → List Int × Option Int
  | 0, _, _ => ([], none)
  | fuel + 1, min, max =>
    if CURRENT_STEP_mA ≤ max - min then
      let mid := (min + max).tdiv 2
      let r := if chargingOk mid then calibrationSpecLoop chargingOk fuel mid max
               else calibrationSpecLoop chargingOk fuel min mid
      (mid :: r.1, some (r.2.getD mid))
    else ([], none)

/-- Modelled from the spec: calibration entry point of the while-loop reading,
started with min = 100 and max = the ceiling at call time. -/
def calibrationSpec (chargingOk : Int → Bool) (ceiling : Int) :
    List Int × Option Int :=
  calibrationSpecLoop chargingOk (ceiling - 100).toNat 100 ceiling

/-- max77665_handle_charger_status: decode a CHG_INT_OK status snapshot.
If the charger OK bit or the charging-input OK bit is unset, schedule the
set_max_current (re-calibration) work with a 100 ms delay; the work is only
scheduled here, never run. If the battery OK bit is unset, read CHG_DTLS_01
(the source ignores the read result value ret) and, when the battery-detail
sub-status equals the overcurrent code, increment the 32-bit counter
oc_count. The display helper at the head of the source function only logs.
Returns the new state, the actions and the (always 0) return value. -/
def max77665_handle_charger_status (hw : Hw) (st : ChargerState)
    (status : Nat) : ChargerState × List Act × Int :=
  let acts := if status &&& CHG_BIT = 0 ∨ status &&& CHGIN_BIT = 0 then
    [Act.scheduleRecal 100] else []
  let st := if status &&& BAT_BIT = 0 ∧
      BAT_DTLS_MASK (hw.readVal MAX77665_CHG_DTLS_01) = BAT_DTLS_OVERCURRENT
    then { st with oc_count := (st.oc_count + 1) % 2 ^ 32 } else st
  (st, acts, 0)

/-- max77665_set_charger_mode: store the requested mode into the shared state
as the first action, then unlock register writes, program the mode bitmask
into CHG_CNFG_00, raise the input-voltage regulation floor in CHG_CNFG_12
(the read result of CHG_CNFG_12 is not checked by the source), attempt to
program the current ceiling (whose failure the source only logs), and re-lock
register writes on every exit path after the unlock succeeded; the value
returned on those paths is the result of the re-locking write. -/
def max77665_set_charger_mode (hw : Hw) (st : ChargerState) (mode : Mode) :
    ChargerState × Int × List Act :=
  let st := { st with mode := mode }
  let ew := max77665_enable_write hw true
  let tr0 := Act.setMode mode :: ew.2
  if ew.1 < 0 then (st, ew.1, tr0)
  else
    let flags : Nat :=
      match mode with
      | Mode.OFF => CHARGER_OFF_OTG_OFF_BUCK_ON_BOOST_OFF
      | Mode.CHARGER => CHARGER_ON_OTG_OFF_BUCK_ON_BOOST_OFF ||| WDTEN
      | Mode.OTG => CHARGER_OFF_OTG_ON_BUCK_OFF_BOOST_ON
    let r1 := max77665_write_reg hw MAX77665_CHG_CNFG_00 (flags : Int)
    let a1 := Act.regWrite MAX77665_CHG_CNFG_00 (flags : Int)
    if r1 < 0 then
      let fin := max77665_enable_write hw false
      (st, fin.1, tr0 ++ [a1] ++ fin.2)
    else
      let fl2 : Nat := hw.readVal MAX77665_CHG_CNFG_12 ||| VCHGIN_REGULATION_4V3
      let r2 := max77665_write_reg hw MAX77665_CHG_CNFG_12 (fl2 : Int)
      let a2 := Act.regWrite MAX77665_CHG_CNFG_12 (fl2 : Int)
      if r2 < 0 then
        let fin := max77665_enable_write hw false
        (st, fin.1, tr0 ++ [a1, a2] ++ fin.2)
      else
        let sm := max77665_set_max_input_current hw st.max_current_mA
        let fin := max77665_enable_write hw false
        (st, fin.1, tr0 ++ [a1, a2] ++ sm.2 ++ fin.2)

/-- max77665_charger_disable_wdt: cancel the pending watchdog acknowledgment
work and the watchdog alarm, abstracted as clearing wdt_armed. -/
def max77665_charger_disable_wdt (st : ChargerState) : ChargerState × List Act :=
  ({ st with wdt_armed := false }, [Act.wdtDisarm])

/-- max77665_disable_charger: clear the ceiling to 0, set mode OFF (failure is
only logged), disarm the watchdog, notify the status-reporting collaborator
with ceiling 0 when the platform provides it, clear both online flags and
signal both power-supply paths. has_us models whether the optional
plat_data->update_status callback is present. -/
def max77665_disable_charger (hw : Hw) (has_us : Bool) (st : ChargerState) :
    ChargerState × Int × List Act :=
  let st := { st with max_current_mA := 0 }
  let sm := max77665_set_charger_mode hw st Mode.OFF
  let dw := max77665_charger_disable_wdt sm.1
  let tUs := if has_us then [Act.updateStatus 0] else []
  let st := { dw.1 with ac_online := 0, usb_online := 0 }
  (st, sm.2.1,
    Act.setCeiling 0 :: sm.2.2 ++ dw.2 ++ tUs ++
      [Act.setAcOnline 0, Act.setUsbOnline 0, Act.psyChangedUsb, Act.psyChangedAc])

/-- Post-classification half of max77665_enable_charger: set the charger
mode, and on success arm the watchdog with the half-period timer and (when
the platform provides the status callback) report the ceiling read back from
the chip; a failed mode transition or ceiling read-back jumps to done. -/
def enable_proceed (hw : Hw) (has_us : Bool) (mode : Mode)
    (stc : ChargerState) (t0 tc : List Act) : ChargerState × Int × List Act :=
  let sm := max77665_set_charger_mode hw stc mode
  if sm.2.1 < 0 then (sm.1, sm.2.1, t0 ++ tc ++ sm.2.2)
  else
    let st := { sm.1 with wdt_armed := true }
    if has_us then
      let gm := max77665_get_max_input_current hw
      if gm.1 < 0 then (st, gm.1, t0 ++ tc ++ sm.2.2 ++ [Act.wdtArm])
      else (st, sm.2.1,
        t0 ++ tc ++ sm.2.2 ++ [Act.wdtArm, Act.updateStatus gm.2])
    else (st, sm.2.1, t0 ++ tc ++ sm.2.2 ++ [Act.wdtArm])

/-- max77665_enable_charger: clear both online flags and notify the
collaborator with 0, classify the attached cable through the extcon lookup
chain (USB-Host, USB, Charge-downstream, TA, Fast-charger, Slow-charger, in
that priority order), and hand a recognized cable to enable_proceed; with no
recognized cable the chain falls through to done. cab is the
extcon_get_cable_state oracle. -/
def max77665_enable_charger (hw : Hw) (cab : String → Bool) (has_us : Bool)
    (st : ChargerState) : ChargerState × Int × List Act :=
  let st := { st with usb_online := 0, ac_online := 0 }
  let t0 := [Act.setUsbOnline 0, Act.setAcOnline 0] ++
    (if has_us then [Act.updateStatus 0] else [])
  -- classification: none means no cable connected (goto done)
  let cls : Option (Mode × ChargerState × List Act) :=
    if cab "USB-Host" then
      some (Mode.OTG, { st with max_current_mA := 0 }, [Act.setCeiling 0])
    else if cab "USB" then
      some (Mode.CHARGER, { st with usb_online := 1, max_current_mA := 500 },
        [Act.setUsbOnline 1, Act.setCeiling 500])
    else if cab "Charge-downstream" then
      some (Mode.CHARGER, { st with usb_online := 1, max_current_mA := 1500 },
        [Act.setUsbOnline 1, Act.setCeiling 1500])
    else if cab "TA" then
      some (Mode.CHARGER, { st with ac_online := 1, max_current_mA := 2000 },
        [Act.setAcOnline 1, Act.setCeiling 2000])
    else if cab "Fast-charger" then
      some (Mode.CHARGER, { st with ac_online := 1, max_current_mA := 2200 },
        [Act.setAcOnline 1, Act.setCeiling 2200])
    else if cab "Slow-charger" then
      some (Mode.CHARGER, { st with ac_online := 1, max_current_mA := 500 },
        [Act.setAcOnline 1, Act.setCeiling 500])
    else none
  let body : ChargerState × Int × List Act :=
    match cls with
    | none => (st, 0, t0)
    | some (mode, stc, tc) => enable_proceed hw has_us mode stc t0 tc
  -- done: signal whichever paths are online
  let done := (if body.1.usb_online ≠ 0 then [Act.psyChangedUsb] else []) ++
    (if body.1.ac_online ≠ 0 then [Act.psyChangedAc] else [])
  (body.1, body.2.1, body.2.2 ++ done)

/-- charger_extcon_handle_notifier: after the debounce settles, read
CHG_DTLS_01 (bailing out if the read fails) and, with charging observed off,
disable on a detach event (event = 0) or enable on an attach event
(event = 1); any other combination leaves state and hardware untouched.
chgOn models the charging_is_on macro from the missing header. -/
def charger_extcon_handle_notifier (hw : Hw) (chgOn : Nat → Bool)
    (cab : String → Bool) (has_us : Bool) (event : Nat) (st : ChargerState) :
    ChargerState × List Act :=
  if hw.readRet MAX77665_CHG_DTLS_01 < 0 then (st, [])
  else
    let val := hw.readVal MAX77665_CHG_DTLS_01
    if event = 0 ∧ ¬ chgOn val then
      let d := max77665_disable_charger hw has_us st
      (d.1, d.2.2)
    else if event = 1 ∧ ¬ chgOn val then
      let e := max77665_enable_charger hw cab has_us st
      (e.1, e.2.2)
    else (st, [])

/-- Transport oracle on which every register operation succeeds. -/
def hwOk : Hw := ⟨fun _ _ => 0, fun _ => 0, fun _ => 0⟩

/-- Transport oracle on which every register operation fails with -EIO (-5). -/
def hwDead : Hw := ⟨fun _ _ => -5, fun _ => -5, fun _ => 0⟩

/-- Charging oracle that judges every probed current OK. -/
def okAll : Int → Bool := fun _ => true

/-- Charging oracle that judges no probed current OK. -/
def okNone : Int → Bool := fun _ => false

/-- Concrete charger state with a 2000 mA ceiling. -/
def st2000 : ChargerState := ⟨Mode.OFF, 2000, 0, 0, 0, false⟩

/-- Concrete charger state with a 0 mA ceiling. -/
def st0 : ChargerState := ⟨Mode.OFF, 0, 0, 0, 0, false⟩

/-- Concrete charger state that is actively charging. -/
def stOn : ChargerState := ⟨Mode.CHARGER, 500, 1, 0, 3, true⟩

/-- Concrete charger state whose 32-bit overcurrent counter is saturated. -/
def stWrap : ChargerState := ⟨Mode.CHARGER, 500, 1, 0, 2 ^ 32 - 1, true⟩

/-- Oracle whose CHG_DTLS_01 read observes an overcurrent battery detail
(0x60 places code 6 in bits 6..4). -/
def hwOC : Hw := ⟨fun _ _ => 0, fun _ => 0, fun _ => 0x60⟩

/-- Oracle whose CHG_DTLS_01 read observes 1 (charging on under chgOn1). -/
def hwOn : Hw := ⟨fun _ _ => 0, fun _ => 0, fun _ => 1⟩

/-- Concrete charging_is_on predicate: detail byte 1 means charging is on. -/
def chgOn1 : Nat → Bool := fun v => v = 1

/-- Cable oracle with no cable attached. -/
def cabNone : String → Bool := fun _ => false

/-- Cable oracle with only the USB cable attached. -/
def cabUSB : String → Bool := fun s => s = "USB"

/- ------------------------------------------------------------------ -/
/- Helper lemmas                                                      -/
/- ------------------------------------------------------------------ -/

/-- The probed midpoint stays above the window floor. -/
theorem mid_lb {mn mx : Int} (h0 : 0 ≤ mn) (h : mn ≤ mx) :
    mn ≤ (mn + mx).tdiv 2 := by
  rw [Int.tdiv_eq_ediv (by omega) (by omega)]
  omega

/-- The probed midpoint stays below the window ceiling. -/
theorem mid_ub {mn mx : Int} (h0 : 0 ≤ mn) (h : mn ≤ mx) :
    (mn + mx).tdiv 2 ≤ mx := by
  rw [Int.tdiv_eq_ediv (by omega) (by omega)]
  omega

/-- With a window of at least two the midpoint strictly exceeds the floor. -/
theorem mid_lb_strict {mn mx : Int} (h0 : 0 ≤ mn) (h : mn + 2 ≤ mx) :
    mn + 1 ≤ (mn + mx).tdiv 2 := by
  rw [Int.tdiv_eq_ediv (by omega) (by omega)]
  omega

/-- With a nonempty window the midpoint is strictly below the ceiling. -/
theorem mid_ub_strict {mn mx : Int} (h0 : 0 ≤ mn) (h : mn + 1 ≤ mx) :
    (mn + mx).tdiv 2 ≤ mx - 1 := by
  rw [Int.tdiv_eq_ediv (by omega) (by omega)]
  omega

/-- The ceiling-programming helper returns 0 whatever the transport does. -/
theorem set_max_input_current_fst (hw : Hw) (mA : Int) :
    (max77665_set_max_input_current hw mA).1 = 0 := rfl

/-- The calibration loop always terminates in the ok branch: the abort check
ret < 0 can never fire because max77665_set_max_input_current returns 0. -/
theorem idealSearchLoop_never_errors (hw : Hw) (chargingOk : Int → Bool) :
    ∀ (fuel : Nat) (mn mx : Int),
    ∃ mid, (idealSearchLoop hw chargingOk fuel mn mx).2 = Except.ok mid := by
  intro fuel
  induction fuel with
  | zero =>
    intro mn mx
    exact ⟨(mn + mx).tdiv 2, rfl⟩
  | succ n ih =>
    intro mn mx
    simp only [idealSearchLoop, set_max_input_current_fst]
    have hlt : ¬ ((0 : Int) < 0) := by omega
    simp only [if_neg hlt]
    by_cases hok : chargingOk ((mn + mx).tdiv 2)
    · simp only [hok, if_true]
      by_cases hc : CURRENT_STEP_mA ≤ mx - (mn + mx).tdiv 2
      · simp only [if_pos hc]
        exact ih ((mn + mx).tdiv 2) mx
      · simp only [if_neg hc]
        exact ⟨(mn + mx).tdiv 2, rfl⟩
    · simp only [hok, if_false]
      by_cases hc : CURRENT_STEP_mA ≤ (mn + mx).tdiv 2 - mn
      · simp only [if_pos hc]
        exact ih mn ((mn + mx).tdiv 2)
      · simp only [if_neg hc]
        exact ⟨(mn + mx).tdiv 2, rfl⟩

/-- The calibration loop result lies inside the initial window. -/
theorem idealSearchLoop_bounds (hw : Hw) (chargingOk : Int → Bool) :
    ∀ (fuel : Nat) (mn mx : Int), 0 ≤ mn → mn ≤ mx →
    ∃ mid, (idealSearchLoop hw chargingOk fuel mn mx).2 = Except.ok mid ∧
      mn ≤ mid ∧ mid ≤ mx := by
  intro fuel
  induction fuel with
  | zero =>
    intro mn mx h0 h
    exact ⟨(mn + mx).tdiv 2, rfl, mid_lb h0 h, mid_ub h0 h⟩
  | succ n ih =>
    intro mn mx h0 h
    simp only [idealSearchLoop, set_max_input_current_fst]
    have hlt : ¬ ((0 : Int) < 0) := by omega
    simp only [if_neg hlt]
    by_cases hok : chargingOk ((mn + mx).tdiv 2)
    · simp only [hok, if_true]
      by_cases hc : CURRENT_STEP_mA ≤ mx - (mn + mx).tdiv 2
      · simp only [if_pos hc]
        have hm0 : 0 ≤ (mn + mx).tdiv 2 := le_trans h0 (mid_lb h0 h)
        obtain ⟨mid, hmid, hl, hu⟩ := ih ((mn + mx).tdiv 2) mx hm0 (mid_ub h0 h)
        exact ⟨mid, hmid, le_trans (mid_lb h0 h) hl, hu⟩
      · simp only [if_neg hc]
        exact ⟨(mn + mx).tdiv 2, rfl, mid_lb h0 h, mid_ub h0 h⟩
    · simp only [hok, if_false]
      by_cases hc : CURRENT_STEP_mA ≤ (mn + mx).tdiv 2 - mn
      · simp only [if_pos hc]
        obtain ⟨mid, hmid, hl, hu⟩ := ih mn ((mn + mx).tdiv 2) h0 (mid_lb h0 h)
        exact ⟨mid, hmid, hl, le_trans hu (mid_ub h0 h)⟩
      · simp only [if_neg hc]
        exact ⟨(mn + mx).tdiv 2, rfl, mid_lb h0 h, mid_ub h0 h⟩

/-- With the loop condition already false, the spec-side while loop performs
no iteration, whatever the fuel. -/
theorem calibrationSpecLoop_stop (chargingOk : Int → Bool) (fuel : Nat)
    (mn mx : Int) (h : ¬ CURRENT_STEP_mA ≤ mx - mn) :
    calibrationSpecLoop chargingOk fuel mn mx = ([], none) := by
  cases fuel with
  | zero => rfl
  | succ n => simp only [calibrationSpecLoop, if_neg h]

/-- Whenever the loop condition holds on entry, the do-while of the source
and the while loop of the spec text probe the same midpoints and agree on the
terminal midpoint; the fuel must dominate the window, which every recursive
call preserves because the window shrinks by at least one per iteration. -/
theorem specLoop_agrees_loop (hw : Hw) (chargingOk : Int → Bool) :
    ∀ (fuel : Nat) (mn mx : Int), 0 ≤ mn →
    CURRENT_STEP_mA ≤ mx - mn → mx - mn ≤ (fuel : Int) →
    calibrationSpecLoop chargingOk fuel mn mx =
      ((idealSearchLoop hw chargingOk fuel mn mx).1,
       (idealSearchLoop hw chargingOk fuel mn mx).2.toOption) := by
  intro fuel
  induction fuel with
  | zero =>
    intro mn mx _ hcond hfuel
    simp only [CURRENT_STEP_mA] at hcond
    omega
  | succ n ih =>
    intro mn mx h0 hcond hfuel
    have hwin : (20 : Int) ≤ mx - mn := by
      simpa only [CURRENT_STEP_mA] using hcond
    have hle : mn ≤ mx := by omega
    simp only [calibrationSpecLoop, if_pos hcond, idealSearchLoop,
      set_max_input_current_fst]
    have hlt : ¬ ((0 : Int) < 0) := by omega
    simp only [if_neg hlt]
    by_cases hok : chargingOk ((mn + mx).tdiv 2)
    · simp only [hok, if_true]
      by_cases hc : CURRENT_STEP_mA ≤ mx - (mn + mx).tdiv 2
      · simp only [if_pos hc]
        have hm0 : 0 ≤ (mn + mx).tdiv 2 := le_trans h0 (mid_lb h0 hle)
        have hshrink : mn + 1 ≤ (mn + mx).tdiv 2 :=
          mid_lb_strict h0 (by omega)
        have hrec := ih ((mn + mx).tdiv 2) mx hm0 hc (by omega)
        rw [hrec]
        obtain ⟨mid, hmid⟩ :=
          idealSearchLoop_never_errors hw chargingOk n ((mn + mx).tdiv 2) mx
        simp [hmid, Except.toOption]
      · simp only [if_neg hc]
        rw [calibrationSpecLoop_stop chargingOk n ((mn + mx).tdiv 2) mx hc]
        simp [Except.toOption]
    · simp only [hok, if_false]
      by_cases hc : CURRENT_STEP_mA ≤ (mn + mx).tdiv 2 - mn
      · simp only [if_pos hc]
        have hshrink : (mn + mx).tdiv 2 ≤ mx - 1 :=
          mid_ub_strict h0 (by omega)
        have hrec := ih mn ((mn + mx).tdiv 2) h0 hc (by omega)
        rw [hrec]
        obtain ⟨mid, hmid⟩ :=
          idealSearchLoop_never_errors hw chargingOk n mn ((mn + mx).tdiv 2)
        simp [hmid, Except.toOption]
      · simp only [if_neg hc]
        rw [calibrationSpecLoop_stop chargingOk n mn ((mn + mx).tdiv 2) hc]
        simp [Except.toOption]

/-- Unlocking write access evaluates to a single CHG_CNFG_06 write of 0x0c. -/
theorem enable_write_true (hw : Hw) : max77665_enable_write hw true =
    (max77665_write_reg hw MAX77665_CHG_CNFG_06 0x0c,
     [Act.regWrite MAX77665_CHG_CNFG_06 0x0c]) := rfl

/-- Re-locking write access evaluates to a single CHG_CNFG_06 write of 0. -/
theorem enable_write_false (hw : Hw) : max77665_enable_write hw false =
    (max77665_write_reg hw MAX77665_CHG_CNFG_06 0x00,
     [Act.regWrite MAX77665_CHG_CNFG_06 0x00]) := rfl

/-- The mode controller leaves every state field untouched except mode, which
it sets to the requested mode on all exit paths. -/
theorem set_charger_mode_state (hw : Hw) (st : ChargerState) (m : Mode) :
    (max77665_set_charger_mode hw st m).1 = { st with mode := m } := by
  unfold max77665_set_charger_mode
  dsimp only
  split_ifs <;> rfl

/-- The mode controller trace starts with the mode update followed by the
write-unlock register write; everything after is register writes. -/
theorem set_charger_mode_trace_shape (hw : Hw) (st : ChargerState) (m : Mode) :
    ∃ rest, (max77665_set_charger_mode hw st m).2.2 =
      Act.setMode m :: Act.regWrite MAX77665_CHG_CNFG_06 0x0c :: rest ∧
      ∀ a ∈ rest, a.isRegWrite = true := by
  unfold max77665_set_charger_mode max77665_set_max_input_current
  simp only [enable_write_true, enable_write_false]
  split_ifs <;>
    exact ⟨_, rfl, by simp [Act.isRegWrite]⟩

/- ------------------------------------------------------------------ -/
/- Claim theorems                                                     -/
/- ------------------------------------------------------------------ -/

/-- C8: for every invocation of max77665_set_charger_mode, with any mode,
any initial state and any transport behaviour (including one on which every
register write fails), the shared mode field is updated to the requested
mode as the first action, before any register write is attempted, and the
requested mode persists in the resulting state. -/
theorem c8_mode_set_first (hw : Hw) (st : ChargerState) (m : Mode) :
    (max77665_set_charger_mode hw st m).1.mode = m ∧
    (max77665_set_charger_mode hw st m).2.2.head? = some (Act.setMode m) := by
  refine ⟨by rw [set_charger_mode_state], ?_⟩
  obtain ⟨rest, hr, _⟩ := set_charger_mode_trace_shape hw st m
  rw [hr]
  rfl

/-- C10: max77665_set_max_input_current returns 0 for every input and every
transport behaviour, so its callers (the calibration loop abort check, the
mode controller ceiling write, and the writable CURRENT_MAX property) can
never observe a transport failure through its return value; in particular a
calibration run never returns an error. -/
theorem c10_set_max_swallows_transport_failure (hw : Hw) (mA intval : Int)
    (chargingOk : Int → Bool) (st : ChargerState) :
    (max77665_set_max_input_current hw mA).1 = 0 ∧
    max77665_charger_set_property hw POWER_SUPPLY_PROP_CURRENT_MAX intval = 0 ∧
    ∃ st', max77665_set_ideal_input_current hw chargingOk st = Except.ok st' := by
  refine ⟨rfl, rfl, ?_⟩
  obtain ⟨mid, hmid⟩ := idealSearchLoop_never_errors hw chargingOk
    (st.max_current_mA - 100).toNat 100 st.max_current_mA
  exact ⟨{ st with max_current_mA := mid }, by
    unfold max77665_set_ideal_input_current
    simp only [hmid]⟩

/-- C1 counterexample: the claim as stated is false on the code. With a
ceiling of 2000 mA and every probe judged OK the stored ceiling is 1985 mA,
which is not a multiple of CURRENT_STEP_mA = 20; and with a ceiling of 0 mA
(below the 100 mA floor) the stored ceiling is 50 mA, outside [100, 0]. -/
theorem c1_counterexample :
    (max77665_set_ideal_input_current hwOk okAll st2000 =
        Except.ok { st2000 with max_current_mA := 1985 } ∧
      ¬ CURRENT_STEP_mA ∣ (1985 : Int)) ∧
    (max77665_set_ideal_input_current hwOk okNone st0 =
        Except.ok { st0 with max_current_mA := 50 } ∧
      ¬ (100 ≤ (50 : Int) ∧ (50 : Int) ≤ st0.max_current_mA)) := by
  refine ⟨⟨rfl, by decide⟩, ⟨rfl, by decide⟩⟩

/-- C1 amended: for every calibration run started with a ceiling C of at
least 100 mA, the run returns successfully and the stored ceiling lies in
[100, C]; the stored value is the raw terminal midpoint and need not be a
multiple of CURRENT_STEP_mA. -/
theorem c1_calibration_ceiling_in_range (hw : Hw) (chargingOk : Int → Bool)
    (st : ChargerState) (h : 100 ≤ st.max_current_mA) :
    ∃ st', max77665_set_ideal_input_current hw chargingOk st = Except.ok st' ∧
      100 ≤ st'.max_current_mA ∧ st'.max_current_mA ≤ st.max_current_mA := by
  obtain ⟨mid, hmid, hl, hu⟩ := idealSearchLoop_bounds hw chargingOk
    (st.max_current_mA - 100).toNat 100 st.max_current_mA (by omega) h
  refine ⟨{ st with max_current_mA := mid }, ?_, hl, hu⟩
  unfold max77665_set_ideal_input_current
  simp only [hmid]

/-- C1 witness: instantiating the amended claim at the all-OK run from a
2000 mA ceiling. -/
theorem c1_witness :
    ∃ st', max77665_set_ideal_input_current hwOk okAll st2000 = Except.ok st' ∧
      100 ≤ st'.max_current_mA ∧ st'.max_current_mA ≤ st2000.max_current_mA :=
  c1_calibration_ceiling_in_range hwOk okAll st2000 (by decide)

/-- C2 counterexample: the claim as stated is false on the code. Started at
ceiling 100 the window is 0, so a loop that iterates only while
(max - min) >= CURRENT_STEP_mA performs no probe and yields no terminal mid,
but the source loop is a do-while: it probes mid = 100 once and stores it. -/
theorem c2_counterexample :
    ¬ (calibrationSpec okAll 100 =
      ((idealSearchLoop hwOk okAll ((100 : Int) - 100).toNat 100 100).1,
       (idealSearchLoop hwOk okAll ((100 : Int) - 100).toNat 100 100).2.toOption)) := by
  decide

/-- C2 amended: the engine is the described binary search except that the
termination test follows the body (do-while), so one probe always occurs;
whenever the loop condition holds at entry, that is when
CURRENT_STEP_mA <= ceiling - 100, the probe sequence and the terminal mid of
the code coincide with the while-loop reading of the spec, and the terminal
mid is the value assigned to state.maxCurrentMA. -/
theorem c2_binary_search_refines_spec (hw : Hw) (chargingOk : Int → Bool)
    (C : Int) (h : CURRENT_STEP_mA ≤ C - 100) :
    calibrationSpec chargingOk C =
      ((idealSearchLoop hw chargingOk (C - 100).toNat 100 C).1,
       (idealSearchLoop hw chargingOk (C - 100).toNat 100 C).2.toOption) ∧
    ∀ st : ChargerState, st.max_current_mA = C →
      ∃ mid, (idealSearchLoop hw chargingOk (C - 100).toNat 100 C).2 =
          Except.ok mid ∧
        max77665_set_ideal_input_current hw chargingOk st =
          Except.ok { st with max_current_mA := mid } := by
  have hstep : (20 : Int) ≤ C - 100 := by
    simpa only [CURRENT_STEP_mA] using h
  constructor
  · exact specLoop_agrees_loop hw chargingOk (C - 100).toNat 100 C (by omega) h
      (by rw [Int.toNat_of_nonneg (by omega)])
  · intro st hst
    obtain ⟨mid, hmid⟩ := idealSearchLoop_never_errors hw chargingOk
      (C - 100).toNat 100 C
    refine ⟨mid, hmid, ?_⟩
    unfold max77665_set_ideal_input_current
    simp only [hst, hmid]

/-- C2 witness: the amended claim instantiated at the all-OK run from a
2000 mA ceiling; both loops probe the same midpoints and end at 1985 mA. -/
theorem c2_witness :
    calibrationSpec okAll 2000 =
      ((idealSearchLoop hwOk okAll ((2000 : Int) - 100).toNat 100 2000).1,
       (idealSearchLoop hwOk okAll ((2000 : Int) - 100).toNat 100 2000).2.toOption) ∧
    ∀ st : ChargerState, st.max_current_mA = 2000 →
      ∃ mid, (idealSearchLoop hwOk okAll ((2000 : Int) - 100).toNat 100 2000).2 =
          Except.ok mid ∧
        max77665_set_ideal_input_current hwOk okAll st =
          Except.ok { st with max_current_mA := mid } :=
  c2_binary_search_refines_spec hwOk okAll 2000 (by decide)

/-- C3: evaluation of the code at the failing input of the claim. With a
transport on which every register write fails (-EIO) and charging never
judged OK, a calibration run from a 2000 mA ceiling does not abort: it
finishes the whole binary search, overwrites the ceiling with the untested
probe value 114 mA and reports success, because the failed programming calls
all returned 0 (see the C10 theorem). The spec behaviour (abort with a
device error, ceiling retained) is unreachable: the guard ret < 0 inside the
loop is dead code. -/
theorem c3_write_failure_does_not_abort :
    max77665_set_ideal_input_current hwDead okNone st2000 =
      Except.ok { st2000 with max_current_mA := 114 } ∧
    (idealSearchLoop hwDead okNone ((2000 : Int) - 100).toNat 100 2000).1 =
      [1050, 575, 337, 218, 159, 129, 114] := by
  exact ⟨rfl, rfl⟩

/-- C4: for every prior state and every transport behaviour, once the disable
path completes the shared state has mode OFF, a zero ceiling, both online
flags cleared and the watchdog disarmed, and (when the platform provides the
status-reporting callback, here required as a hypothesis because the driver
guards the call on its presence) the collaborator was notified with 0. -/
theorem c4_disable_postcondition (hw : Hw) (has_us : Bool) (st : ChargerState)
    (h : has_us = true) :
    (max77665_disable_charger hw has_us st).1.mode = Mode.OFF ∧
    (max77665_disable_charger hw has_us st).1.max_current_mA = 0 ∧
    (max77665_disable_charger hw has_us st).1.ac_online = 0 ∧
    (max77665_disable_charger hw has_us st).1.usb_online = 0 ∧
    (max77665_disable_charger hw has_us st).1.wdt_armed = false ∧
    Act.updateStatus 0 ∈ (max77665_disable_charger hw has_us st).2.2 := by
  unfold max77665_disable_charger max77665_charger_disable_wdt
  simp [set_charger_mode_state, h, List.mem_append]

/-- C4 witness: the disable postcondition at a concrete charging state with
the collaborator present. -/
theorem c4_witness :
    (max77665_disable_charger hwOk true stOn).1.mode = Mode.OFF ∧
    (max77665_disable_charger hwOk true stOn).1.max_current_mA = 0 ∧
    (max77665_disable_charger hwOk true stOn).1.ac_online = 0 ∧
    (max77665_disable_charger hwOk true stOn).1.usb_online = 0 ∧
    (max77665_disable_charger hwOk true stOn).1.wdt_armed = false ∧
    Act.updateStatus 0 ∈ (max77665_disable_charger hwOk true stOn).2.2 :=
  c4_disable_postcondition hwOk true stOn rfl

/-- C9 counterexample: the claim as stated is false on the code. The first
action of the disable path is clearing the ceiling, not disarming the
watchdog; the disarm only happens after the mode-OFF register programming. -/
theorem c9_counterexample :
    (max77665_disable_charger hwOk true stOn).2.2.head? =
      some (Act.setCeiling 0) ∧
    ¬ (max77665_disable_charger hwOk true stOn).2.2.head? =
      some Act.wdtDisarm := by
  decide

/-- C9 amended: on every disable invocation the watchdog is disarmed exactly
once, after the ceiling clear, the mode update and the register programming
of the mode controller, but before the collaborator notification, the
clearing of the online flags and the power-supply change signals. -/
theorem c9_watchdog_disarmed_mid_disable (hw : Hw) (has_us : Bool)
    (st : ChargerState) :
    ∃ pre, (max77665_disable_charger hw has_us st).2.2 =
      pre ++ Act.wdtDisarm ::
        ((if has_us then [Act.updateStatus 0] else []) ++
         [Act.setAcOnline 0, Act.setUsbOnline 0, Act.psyChangedUsb,
          Act.psyChangedAc]) ∧
      ∀ a ∈ pre, a = Act.setCeiling 0 ∨ a = Act.setMode Mode.OFF ∨
        a.isRegWrite = true := by
  obtain ⟨rest, hr, hrw⟩ := set_charger_mode_trace_shape hw
    { st with max_current_mA := 0 } Mode.OFF
  refine ⟨Act.setCeiling 0 ::
    (max77665_set_charger_mode hw { st with max_current_mA := 0 }
      Mode.OFF).2.2, ?_, ?_⟩
  · unfold max77665_disable_charger max77665_charger_disable_wdt
    simp [List.append_assoc]
  · intro a ha
    rw [hr] at ha
    simp only [List.mem_cons] at ha
    rcases ha with h | h | h | h
    · exact Or.inl h
    · exact Or.inr (Or.inl h)
    · refine Or.inr (Or.inr ?_)
      rw [h]
      rfl
    · exact Or.inr (Or.inr (hrw a h))

/-- C6 counterexample: the claim as stated is false on the code because the
overcurrent counter is a 32-bit quantity. At a saturated counter an observed
overcurrent detail wraps the counter to 0, which is decreasing. -/
theorem c6_counterexample :
    (max77665_handle_charger_status hwOC stWrap 0).1.oc_count = 0 ∧
    ¬ stWrap.oc_count ≤
      (max77665_handle_charger_status hwOC stWrap 0).1.oc_count := by
  decide

/-- C6 amended: for every snapshot, a recalibration work item is scheduled
with a 100 ms delay (and only scheduled, never run synchronously) exactly
when the charger OK bit or the charging-input OK bit is unset; the 32-bit
overcurrent counter is bumped modulo 2 to the 32 exactly when the battery OK
bit is unset and the observed battery detail equals the overcurrent code,
and is untouched on every other fault; hence, for counter values
representable in 32 bits, the counter is non-decreasing except at the
wrap-around point 2 to the 32 minus 1. -/
theorem c6_status_decoder (hw : Hw) (st : ChargerState) (status : Nat)
    (h : st.oc_count < 2 ^ 32) :
    (max77665_handle_charger_status hw st status).2.1 =
      (if status &&& CHG_BIT = 0 ∨ status &&& CHGIN_BIT = 0 then
        [Act.scheduleRecal 100] else []) ∧
    (max77665_handle_charger_status hw st status).1.oc_count =
      (if status &&& BAT_BIT = 0 ∧
          BAT_DTLS_MASK (hw.readVal MAX77665_CHG_DTLS_01) = BAT_DTLS_OVERCURRENT
       then (st.oc_count + 1) % 2 ^ 32 else st.oc_count) ∧
    (st.oc_count ≤ (max77665_handle_charger_status hw st status).1.oc_count ∨
      st.oc_count = 2 ^ 32 - 1) := by
  refine ⟨rfl, ?_, ?_⟩
  · unfold max77665_handle_charger_status
    dsimp only
    split_ifs <;> rfl
  · unfold max77665_handle_charger_status
    dsimp only
    split_ifs with hc
    · by_cases hsat : st.oc_count = 2 ^ 32 - 1
      · exact Or.inr hsat
      · exact Or.inl (by simp only; omega)
    · exact Or.inl le_rfl

/-- C6 witness: the amended claim at a concrete overcurrent snapshot with a
small counter; the counter goes from 3 to 4 and the recalibration work is
scheduled because the charger OK bit is unset in status 0. -/
theorem c6_witness :
    (max77665_handle_charger_status hwOC stOn 0).2.1 =
      (if (0 : Nat) &&& CHG_BIT = 0 ∨ (0 : Nat) &&& CHGIN_BIT = 0 then
        [Act.scheduleRecal 100] else []) ∧
    (max77665_handle_charger_status hwOC stOn 0).1.oc_count =
      (if (0 : Nat) &&& BAT_BIT = 0 ∧
          BAT_DTLS_MASK (hwOC.readVal MAX77665_CHG_DTLS_01) =
            BAT_DTLS_OVERCURRENT
       then (stOn.oc_count + 1) % 2 ^ 32 else stOn.oc_count) ∧
    (stOn.oc_count ≤ (max77665_handle_charger_status hwOC stOn 0).1.oc_count ∨
      stOn.oc_count = 2 ^ 32 - 1) :=
  c6_status_decoder hwOC stOn 0 (by decide)

/-- C7 counterexample: the claim as stated is false on the code. A detach
event (event 0) observed while charging is still on is out of sync with the
desired off state, yet the code discards it; and a detach observed with
charging already off (in sync with the desired state) is acted on, running
the disable path. -/
theorem c7_counterexample :
    (chgOn1 (hwOn.readVal MAX77665_CHG_DTLS_01) = true ∧
      charger_extcon_handle_notifier hwOn chgOn1 cabNone true 0 stOn =
        (stOn, [])) ∧
    (chgOn1 (hwOk.readVal MAX77665_CHG_DTLS_01) = false ∧
      (charger_extcon_handle_notifier hwOk chgOn1 cabNone true 0 stOn).2 ≠
        []) := by
  decide

/-- C7 amended: when the debounced event settles the handler reads the
charger detail; if the read fails or charging is observed on, the event is
discarded with no action at all; with charging observed off, a detach event
runs the disable path and an attach event runs the enable path. In
particular a detach while charging is still reported on is treated as a
suspected stale event and ignored, rather than acted on. -/
theorem c7_notifier_dispatch (hw : Hw) (chgOn : Nat → Bool)
    (cab : String → Bool) (has_us : Bool) (event : Nat) (st : ChargerState) :
    charger_extcon_handle_notifier hw chgOn cab has_us event st =
      if hw.readRet MAX77665_CHG_DTLS_01 < 0 then (st, [])
      else if chgOn (hw.readVal MAX77665_CHG_DTLS_01) then (st, [])
      else if event = 0 then
        ((max77665_disable_charger hw has_us st).1,
         (max77665_disable_charger hw has_us st).2.2)
      else if event = 1 then
        ((max77665_enable_charger hw cab has_us st).1,
         (max77665_enable_charger hw cab has_us st).2.2)
      else (st, []) := by
  unfold charger_extcon_handle_notifier
  by_cases hr : hw.readRet MAX77665_CHG_DTLS_01 < 0
  · simp [hr]
  · by_cases hc : chgOn (hw.readVal MAX77665_CHG_DTLS_01) = true
    · simp [hr, hc]
    · by_cases he : event = 0
      · simp [hr, hc, he]
      · by_cases he1 : event = 1 <;> simp [hr, hc, he, he1]

/-- A mode-controller trace always contains a register write, so a predicate
requiring no register writes fails on it. -/
theorem set_charger_mode_trace_all_false (hw : Hw) (st : ChargerState)
    (m : Mode) :
    ((max77665_set_charger_mode hw st m).2.2.all fun a => ! a.isRegWrite) =
      false := by
  obtain ⟨rest, hr, _⟩ := set_charger_mode_trace_shape hw st m
  rw [hr]
  simp [Act.isRegWrite]

/-- The post-classification path always ends in the classified mode. -/
theorem enable_proceed_mode (hw : Hw) (has_us : Bool) (m : Mode)
    (stc : ChargerState) (t0 tc : List Act) :
    (enable_proceed hw has_us m stc t0 tc).1.mode = m := by
  unfold enable_proceed
  simp only [set_charger_mode_state]
  split_ifs <;> rfl

/-- The post-classification path never changes the classified ceiling. -/
theorem enable_proceed_max (hw : Hw) (has_us : Bool) (m : Mode)
    (stc : ChargerState) (t0 tc : List Act) :
    (enable_proceed hw has_us m stc t0 tc).1.max_current_mA =
      stc.max_current_mA := by
  unfold enable_proceed
  simp only [set_charger_mode_state]
  split_ifs <;> rfl

/-- The post-classification path never changes the AC online flag. -/
theorem enable_proceed_ac (hw : Hw) (has_us : Bool) (m : Mode)
    (stc : ChargerState) (t0 tc : List Act) :
    (enable_proceed hw has_us m stc t0 tc).1.ac_online = stc.ac_online := by
  unfold enable_proceed
  simp only [set_charger_mode_state]
  split_ifs <;> rfl

/-- The post-classification path never changes the USB online flag. -/
theorem enable_proceed_usb (hw : Hw) (has_us : Bool) (m : Mode)
    (stc : ChargerState) (t0 tc : List Act) :
    (enable_proceed hw has_us m stc t0 tc).1.usb_online = stc.usb_online := by
  unfold enable_proceed
  simp only [set_charger_mode_state]
  split_ifs <;> rfl

/-- The post-classification path always attempts register writes. -/
theorem enable_proceed_all_false (hw : Hw) (has_us : Bool) (m : Mode)
    (stc : ChargerState) (t0 tc : List Act) :
    ((enable_proceed hw has_us m stc t0 tc).2.2.all
      fun a => ! a.isRegWrite) = false := by
  unfold enable_proceed
  simp only [set_charger_mode_state]
  split_ifs <;>
    simp [set_charger_mode_trace_all_false, List.all_append]

/-- C5: on the enable path the attached source is classified by cable name,
in the priority order of the source chain, into exactly one of reverse-boost
host (USB-Host, mode OTG, ceiling 0), USB (500 mA, usb online),
charge-downstream (1500 mA, usb online), generic AC (TA, 2000 mA, ac
online), fast AC (2200 mA, ac online) or slow AC (500 mA, ac online); after
classification at most one of the online flags is set; and when no
recognized cable is active neither the mode nor any register is touched
(while a recognized cable always leads to register writes). -/
theorem c5_enable_classification (hw : Hw) (cab : String → Bool)
    (has_us : Bool) (st : ChargerState) :
    ((max77665_enable_charger hw cab has_us st).1.ac_online = 0 ∨
     (max77665_enable_charger hw cab has_us st).1.usb_online = 0) ∧
    (max77665_enable_charger hw cab has_us st).1.mode =
      (if cab "USB-Host" then Mode.OTG
       else if cab "USB" || cab "Charge-downstream" || cab "TA" ||
         cab "Fast-charger" || cab "Slow-charger" then Mode.CHARGER
       else st.mode) ∧
    (max77665_enable_charger hw cab has_us st).1.max_current_mA =
      (if cab "USB-Host" then 0 else if cab "USB" then 500
       else if cab "Charge-downstream" then 1500 else if cab "TA" then 2000
       else if cab "Fast-charger" then 2200 else if cab "Slow-charger" then 500
       else st.max_current_mA) ∧
    (max77665_enable_charger hw cab has_us st).1.usb_online =
      (if cab "USB-Host" then 0
       else if cab "USB" || cab "Charge-downstream" then 1 else 0) ∧
    (max77665_enable_charger hw cab has_us st).1.ac_online =
      (if cab "USB-Host" || cab "USB" || cab "Charge-downstream" then 0
       else if cab "TA" || cab "Fast-charger" || cab "Slow-charger" then 1
       else 0) ∧
    ((max77665_enable_charger hw cab has_us st).2.2.all
        fun a => ! a.isRegWrite) =
      (! (cab "USB-Host" || cab "USB" || cab "Charge-downstream" || cab "TA" ||
          cab "Fast-charger" || cab "Slow-charger")) := by
  cases hH : cab "USB-Host"
  case true =>
    simp [max77665_enable_charger, hH, enable_proceed_mode, enable_proceed_max,
      enable_proceed_ac, enable_proceed_usb, enable_proceed_all_false,
      List.all_append]
  case false =>
    cases hU : cab "USB"
    case true =>
      simp [max77665_enable_charger, hH, hU, enable_proceed_mode,
        enable_proceed_max, enable_proceed_ac, enable_proceed_usb,
        enable_proceed_all_false, List.all_append]
    case false =>
      cases hC : cab "Charge-downstream"
      case true =>
        simp [max77665_enable_charger, hH, hU, hC, enable_proceed_mode,
          enable_proceed_max, enable_proceed_ac, enable_proceed_usb,
          enable_proceed_all_false, List.all_append]
      case false =>
        cases hT : cab "TA"
        case true =>
          simp [max77665_enable_charger, hH, hU, hC, hT, enable_proceed_mode,
            enable_proceed_max, enable_proceed_ac, enable_proceed_usb,
            enable_proceed_all_false, List.all_append]
        case false =>
          cases hF : cab "Fast-charger"
          case true =>
            simp [max77665_enable_charger, hH, hU, hC, hT, hF,
              enable_proceed_mode, enable_proceed_max, enable_proceed_ac,
              enable_proceed_usb, enable_proceed_all_false, List.all_append]
          case false =>
            cases hS : cab "Slow-charger"
            case true =>
              simp [max77665_enable_charger, hH, hU, hC, hT, hF, hS,
                enable_proceed_mode, enable_proceed_max, enable_proceed_ac,
                enable_proceed_usb, enable_proceed_all_false, List.all_append]
            case false =>
              cases has_us <;>
                simp [max77665_enable_charger, hH, hU, hC, hT, hF, hS,
                  Act.isRegWrite, List.all_append]

end Max77665
